import Mathlib

/-!
Verification development for the jira-workflow-gitbot repository.

The repository is a Probot GitHub app that keeps a pull request in sync with a
Jira issue.  This file gives a shallow embedding of its core logic:

* `parseTitle`   — the issue-key title parser of `src/probotHelpers.ts`
  (the anchored, case-insensitive regex built in `getJira`);
* `markdownToJira` — the markdown-to-wiki-markup pipeline of `src/j2m.ts`,
  embedded through a small backtracking regex engine that mirrors the
  JavaScript regular expressions stage by stage;
* the event handlers of `src/index.ts` (the fuller variant of the
  `pull_request.opened`/`edited` handler, the `pull_request.assigned`
  handler, the `review_requested`/`review_request_removed` handler, and the
  first, link-only variant of the opened/edited handler), embedded as pure
  functions from an oracle environment (the responses of the external Jira
  and GitHub services) to the list of external write effects they issue.

External calls that JavaScript `await`s are represented by oracle fields of
the environment; a thrown-and-uncaught exception is represented by an
aborted run (`Bool` component `false`), and a thrown-but-caught exception by
a logged no-op, exactly following the try/catch structure of the source.
-/

namespace GitBot

/-! ## JavaScript character classes

Character classes used by the regular expressions of the source.  `\s`, `\d`
and `\w` follow the ECMAScript definitions (restricted to the code points
that can actually occur in our development, plus the documented Unicode
whitespace list); `.` (without the `s` flag) is any character that is not a
line terminator. -/

/-- ECMAScript `\s`: whitespace and line terminators. -/
def jsWhitespace (c : Char) : Bool :=
  c = ' ' || c = '\t' || c = '\n' || c = '\r' || c = '\x0b' || c = '\x0c' ||
  c = ' ' || c = ' ' ||
  (' ' ≤ c && c ≤ ' ') ||
  c = ' ' || c = ' ' || c = ' ' || c = ' ' ||
  c = '　' || c = '﻿'

/-- ECMAScript line terminators (for multiline `^`/`$` and for `.`). -/
def jsLineTerm (c : Char) : Bool :=
  c = '\n' || c = '\r' || c = ' ' || c = ' '

/-- ECMAScript `\d`. -/
def jsDigit (c : Char) : Bool := '0' ≤ c && c ≤ '9'

/-- ECMAScript `\w`. -/
def jsWord (c : Char) : Bool :=
  ('a' ≤ c && c ≤ 'z') || ('A' ≤ c && c ≤ 'Z') || jsDigit c || c = '_'

/-- ECMAScript `.` without the `s` flag: anything but a line terminator. -/
def jsDot (c : Char) : Bool := !jsLineTerm c

/-! ## Small string utilities over `List Char` -/

/-- `String.prototype.split('\n')` — split on the literal newline character. -/
def splitOnNl : List Char → List (List Char)
  | [] => [[]]
  | c :: rest =>
    match splitOnNl rest with
    | [] => [[]]
    | h :: t => if c = '\n' then [] :: h :: t else (c :: h) :: t

/-- `Array.prototype.join('\n')`. -/
def joinNl : List (List Char) → List Char
  | [] => []
  | [l] => l
  | l :: rest => l ++ '\n' :: joinNl rest

/-- `String.prototype.split(/\r?\n/)` — the table stage's line split. -/
def splitCrLf : List Char → List (List Char)
  | [] => [[]]
  | '\r' :: '\n' :: rest => [] :: splitCrLf rest
  | '\n' :: rest => [] :: splitCrLf rest
  | c :: rest =>
    match splitCrLf rest with
    | [] => [[]]
    | h :: t => (c :: h) :: t

/-- Substring test (JavaScript `string.match(/pat/g) != null` for a literal
pattern). -/
def containsSub (pat : List Char) : List Char → Bool
  | [] => pat.isEmpty
  | c :: rest => pat.isPrefixOf (c :: rest) || containsSub pat rest

/-! ## Title parser (`parseTitle` of `src/probotHelpers.ts`)

The source builds
`new RegExp('^\\s*\\[?\\s*(KEY-\\d+)\\s*\\]?\\s*(?:-|:)\\s*(.+)\\s*$', 'i')`
and matches the PR title against it.  We embed the match as a
continuation-passing matcher whose components mirror the regex left to
right; greedy pieces try the longest alternative first and backtrack through
the continuation, exactly as the JavaScript engine does. -/

/-- Greedy `\s*` with backtracking. -/
def wsStarK (s : List Char) (k : List Char → Option α) : Option α :=
  match s with
  | [] => k []
  | c :: rest =>
    if jsWhitespace c then (wsStarK rest k) <|> k (c :: rest) else k (c :: rest)

/-- Greedy `x?` for a single character, with backtracking. -/
def optCharK (c : Char) (s : List Char) (k : List Char → Option α) : Option α :=
  match s with
  | [] => k []
  | d :: rest => if d = c then (k rest) <|> k (d :: rest) else k (d :: rest)

/-- Case-insensitive literal (the `i` flag applied to the project key). -/
def litCIK (lit : List Char) (s : List Char) (k : List Char → Option α) : Option α :=
  match lit, s with
  | [], rest => k rest
  | _ :: _, [] => none
  | l :: ls, c :: rest =>
    if l.toLower = c.toLower then litCIK ls rest k else none

/-- Greedy `\d*` with backtracking, accumulating the consumed digits. -/
def digitsStarK (acc : List Char) (s : List Char)
    (k : List Char → List Char → Option α) : Option α :=
  match s with
  | [] => k acc []
  | c :: rest =>
    if jsDigit c then (digitsStarK (acc ++ [c]) rest k) <|> k acc (c :: rest)
    else k acc (c :: rest)

/-- `\d+`: one digit, then greedy `\d*`. -/
def digitsPlusK (s : List Char) (k : List Char → List Char → Option α) : Option α :=
  match s with
  | [] => none
  | c :: rest => if jsDigit c then digitsStarK [c] rest k else none

/-- Greedy `.*` (`.` = `jsDot`) with backtracking, accumulating. -/
def dotStarK (acc : List Char) (s : List Char)
    (k : List Char → List Char → Option α) : Option α :=
  match s with
  | [] => k acc []
  | c :: rest =>
    if jsDot c then (dotStarK (acc ++ [c]) rest k) <|> k acc (c :: rest)
    else k acc (c :: rest)

/-- Greedy `(.+)`. -/
def dotPlusK (s : List Char) (k : List Char → List Char → Option α) : Option α :=
  match s with
  | [] => none
  | c :: rest => if jsDot c then dotStarK [c] rest k else none

/-- `(?:-|:)`. -/
def sepK (s : List Char) (k : List Char → Option α) : Option α :=
  match s with
  | [] => none
  | c :: rest => if c = '-' || c = ':' then k rest else none

/-- The full anchored match.  Returns the two capture groups: the issue key
text as it appears in the title, and the description. -/
def titleMatch (key : List Char) (s : List Char) :
    Option (List Char × List Char) :=
  wsStarK s fun s1 =>
  optCharK '[' s1 fun s2 =>
  wsStarK s2 fun s3 =>
  litCIK key s3 fun s4 =>
  match s4 with
  | [] => none
  | c :: s5 =>
    if c = '-' then
      digitsPlusK s5 fun digits s6 =>
      wsStarK s6 fun s7 =>
      optCharK ']' s7 fun s8 =>
      wsStarK s8 fun s9 =>
      sepK s9 fun s10 =>
      wsStarK s10 fun s11 =>
      dotPlusK s11 fun desc s12 =>
      wsStarK s12 fun s13 =>
      match s13 with
      | [] => some (s3.take key.length ++ '-' :: digits, desc)
      | _ :: _ => none
    else none

/-- `jira.parseTitle` of `src/probotHelpers.ts`: on a match the issue key is
upper-cased (`matchedKey.toUpperCase()`); on no match both components are
the empty string. -/
def parseTitle (projectKey title : String) : String × String :=
  match titleMatch projectKey.toList title.toList with
  | some (k, d) => (String.mk (k.map Char.toUpper), String.mk d)
  | none => ("", "")

/-! ## A small backtracking regex engine

`src/j2m.ts` is a pipeline of JavaScript `String.prototype.replace` calls
with regular expressions.  We embed the regexes in a tiny AST covering
exactly the constructs they use, and give them ECMAScript backtracking
semantics with a continuation-passing matcher.  A fuel argument makes the
recursion obviously total; the fuel bounds the backtracking *depth*, and
every use supplies fuel far larger than any path the given patterns can
explore on the given input. -/

/-- The regex constructs used by `j2m.ts`.  Stars and pluses range over
single-character classes only (as they do in the source patterns), except
`optG`/`grp`, which wrap a sub-expression.  `grpLast` is `(c)+` — a greedy
plus whose group captures the last iteration, as ECMAScript does when the
quantifier is outside the group. -/
inductive RE where
  | cls (p : Char → Bool)
  | lit (cs : List Char)
  | seq (a b : RE)
  | alt (a b : RE)
  | starL (p : Char → Bool)
  | starG (p : Char → Bool)
  | plusL (p : Char → Bool)
  | plusG (p : Char → Bool)
  | optG (r : RE)
  | repG (n : Nat) (p : Char → Bool)
  | grp (i : Nat) (r : RE)
  | grpLast (i : Nat) (p : Char → Bool)
  | grpLastStar (i : Nat) (p : Char → Bool)
  | bref (i : Nat)
  | bol
  | eol

/-- Capture table: group index to captured characters (innermost first;
lookup takes the most recent entry). -/
abbrev Caps := List (Nat × List Char)

/-- Look up a capture group. -/
def lookupCap (caps : Caps) (i : Nat) : Option (List Char) :=
  (caps.find? (fun p => p.1 == i)).map (·.2)

/-- Match a literal, threading the previous-character context. -/
def litK (cs : List Char) (s : List Char) (prev : Option Char)
    (k : List Char → Option Char → Option σ) : Option σ :=
  match cs, s with
  | [], rest => k rest prev
  | _ :: _, [] => none
  | c :: cs', d :: rest => if d = c then litK cs' rest (some d) k else none

/-- The backtracking matcher.  `m` is the ECMAScript `m` (multiline) flag;
`prev` is the character just before the current position (`none` at the
absolute start), used by `^`; `$` looks ahead at the unconsumed input. -/
def reMatch (m : Bool) :
    Nat → RE → List Char → Option Char → Caps →
    (List Char → Option Char → Caps → Option σ) → Option σ
  | 0, _, _, _, _, _ => none
  | Nat.succ fuel, re, s, prev, caps, k =>
    match re with
    | .cls p =>
      match s with
      | [] => none
      | c :: rest => if p c then k rest (some c) caps else none
    | .lit cs => litK cs s prev (fun s' p' => k s' p' caps)
    | .seq a b =>
      reMatch m fuel a s prev caps (fun s' p' c' => reMatch m fuel b s' p' c' k)
    | .alt a b => (reMatch m fuel a s prev caps k) <|> (reMatch m fuel b s prev caps k)
    | .starL p =>
      (k s prev caps) <|>
      (match s with
       | [] => none
       | c :: rest => if p c then reMatch m fuel (.starL p) rest (some c) caps k else none)
    | .starG p =>
      (match s with
       | [] => none
       | c :: rest => if p c then reMatch m fuel (.starG p) rest (some c) caps k else none) <|>
      (k s prev caps)
    | .plusL p =>
      match s with
      | [] => none
      | c :: rest => if p c then reMatch m fuel (.starL p) rest (some c) caps k else none
    | .plusG p =>
      match s with
      | [] => none
      | c :: rest => if p c then reMatch m fuel (.starG p) rest (some c) caps k else none
    | .optG r => (reMatch m fuel r s prev caps k) <|> (k s prev caps)
    | .repG n p =>
      match n with
      | 0 => reMatch m fuel (.starG p) s prev caps k
      | Nat.succ n' =>
        match s with
        | [] => none
        | c :: rest => if p c then reMatch m fuel (.repG n' p) rest (some c) caps k else none
    | .grp i r =>
      reMatch m fuel r s prev caps (fun s' p' caps' =>
        k s' p' ((i, s.take (s.length - s'.length)) :: caps'))
    | .grpLast i p =>
      match s with
      | [] => none
      | c :: rest =>
        if p c then reMatch m fuel (.grpLastStar i p) rest (some c) ((i, [c]) :: caps) k
        else none
    | .grpLastStar i p =>
      (match s with
       | [] => none
       | c :: rest =>
         if p c then reMatch m fuel (.grpLastStar i p) rest (some c) ((i, [c]) :: caps) k
         else none) <|>
      (k s prev caps)
    | .bref i =>
      litK ((lookupCap caps i).getD []) s prev (fun s' p' => k s' p' caps)
    | .bol =>
      if m then
        match prev with
        | none => k s prev caps
        | some c => if jsLineTerm c then k s prev caps else none
      else
        match prev with
        | none => k s prev caps
        | some _ => none
    | .eol =>
      if m then
        match s with
        | [] => k s prev caps
        | c :: _ => if jsLineTerm c then k s prev caps else none
      else
        match s with
        | [] => k s prev caps
        | _ :: _ => none

/-- Fuel that is comfortably larger than any backtracking depth the stage
patterns can reach on the given input. -/
def matchFuel (s : List Char) : Nat := (s.length + 4) * 64

/-- One global `replace` pass (`/g` flag): scan left to right; at each
position try the regex; on a match emit the (stateful) replacement and
continue after the match, otherwise copy one character and advance. -/
def scanRepl (m : Bool) (re : RE)
    (repl : σ → Caps → List Char → (List Char × σ)) :
    Nat → σ → Option Char → List Char → (List Char × σ)
  | 0, st, _, s => (s, st)
  | Nat.succ fuel, st, prev, s =>
    match reMatch m (matchFuel s) re s prev []
        (fun s' p' caps => some (s', p', caps)) with
    | some (s', p', caps) =>
      let consumed := s.take (s.length - s'.length)
      if consumed.isEmpty then
        -- None of the stage patterns can match the empty string, so this
        -- branch is unreachable; copy a character and continue.
        match s with
        | [] => ([], st)
        | c :: rest =>
          let (out, st') := scanRepl m re repl fuel st (some c) rest
          (c :: out, st')
      else
        let (rep, st1) := repl st caps consumed
        let (out, st') := scanRepl m re repl fuel st1 p' s'
        (rep ++ out, st')
    | none =>
      match s with
      | [] => ([], st)
      | c :: rest =>
        let (out, st') := scanRepl m re repl fuel st (some c) rest
        (c :: out, st')

/-- Stateless stage wrapper. -/
def runStage (m : Bool) (re : RE) (repl : Caps → List Char → List Char)
    (s : List Char) : List Char :=
  (scanRepl m re (fun (_ : Unit) caps cons => (repl caps cons, ())) (s.length + 1) () none s).1

/-- Stateful stage wrapper (used by the fence-extraction stage). -/
def runStageSt (m : Bool) (re : RE)
    (repl : σ → Caps → List Char → (List Char × σ)) (st : σ) (s : List Char) :
    (List Char × σ) :=
  scanRepl m re repl (s.length + 1) st none s

/-! ## `markdownToJira` (`src/j2m.ts`)

Each stage below is one `input.replace(...)` line of the source, in source
order.  Braces in the produced wiki markup are written with `\x7b`/`\x7d`
escapes and the backtick character as `'\x60'`. -/

/-- A character of the fence content: `(?:\n|.)` — a newline or any
non-line-terminator (note `\r` is matched by neither). -/
def fenceContentChar (c : Char) : Bool := c = '\n' || jsDot c

/-- Stage 1 pattern: ``/`{3,}(\w+)?((?:\n|.)+?)`{3,}/g``. -/
def fenceRE : RE :=
  .seq (.repG 3 (fun c => c = '\x60'))
    (.seq (.optG (.grp 1 (.plusG jsWord)))
      (.seq (.grp 2 (.plusL fenceContentChar))
        (.repG 3 (fun c => c = '\x60'))))

/-- The placeholder key `J2MBLOCKPLACEHOLDER{counter}%%`. -/
def fenceKey (counter : Nat) : List Char :=
  "J2MBLOCKPLACEHOLDER".toList ++ (Nat.repr counter).toList ++ "%%".toList

/-- Stage 1 replacement: stash `{code[:lang]}content{code}` under a fresh
placeholder key and emit the key. -/
def fenceRepl (st : Nat × List (List Char × List Char)) (caps : Caps)
    (_consumed : List Char) : List Char × (Nat × List (List Char × List Char)) :=
  let code :=
    "\x7bcode".toList ++
    (match lookupCap caps 1 with
     | some synt => ':' :: synt
     | none => []) ++
    "\x7d".toList ++ (lookupCap caps 2).getD [] ++ "\x7bcode\x7d".toList
  let key := fenceKey st.1
  (key, (st.1 + 1, st.2 ++ [(key, code)]))

/-- Stage 2 pattern: `/^(.*?)\n([=-])+$/gm` (setext headings). -/
def setextRE : RE :=
  .seq .bol
    (.seq (.grp 1 (.starL jsDot))
      (.seq (.lit ['\n'])
        (.seq (.grpLast 2 (fun c => c = '=' || c = '-')) .eol)))

/-- Stage 2 replacement: `'h' + (level[0] === '=' ? 1 : 2) + '. ' + content`. -/
def setextRepl (caps : Caps) (_consumed : List Char) : List Char :=
  let level := (lookupCap caps 2).getD []
  let content := (lookupCap caps 1).getD []
  'h' :: (if level.head? = some '=' then '1' else '2') :: '.' :: ' ' :: content

/-- Stage 3 pattern: `/^([#]+)(.*?)$/gm` (ATX headings). -/
def atxRE : RE :=
  .seq .bol (.seq (.grp 1 (.plusG (fun c => c = '#'))) (.seq (.grp 2 (.starL jsDot)) .eol))

/-- Stage 3 replacement: `'h' + level.length + '.' + content` — note the
content (including any leading space after the `#` run) is appended
directly after the dot. -/
def atxRepl (caps : Caps) (_consumed : List Char) : List Char :=
  let level := (lookupCap caps 1).getD []
  let content := (lookupCap caps 2).getD []
  'h' :: (Nat.repr level.length).toList ++ '.' :: content

/-- Stage 4 pattern: `/([*_]+)(.*?)\1/g` (emphasis). -/
def emphRE : RE :=
  .seq (.grp 1 (.plusG (fun c => c = '*' || c = '_')))
    (.seq (.grp 2 (.starL jsDot)) (.bref 1))

/-- Stage 4 replacement: single-character wrappers become `_`, longer ones
become `*`. -/
def emphRepl (caps : Caps) (_consumed : List Char) : List Char :=
  let wrapper := (lookupCap caps 1).getD []
  let content := (lookupCap caps 2).getD []
  let toMark := if wrapper.length = 1 then '_' else '*'
  toMark :: content ++ [toMark]

/-- Stage 5 pattern: `/^(\s*)- (.*)$/gm` (nested bullet lists). -/
def bulletRE : RE :=
  .seq .bol
    (.seq (.grp 1 (.starG jsWhitespace))
      (.seq (.lit ['-', ' ']) (.seq (.grp 2 (.starG jsDot)) .eol)))

/-- Stage 5 replacement: `Array(len).join('-') + ' ' + content` with
`len = level.length > 0 ? Math.floor(level.length / 4.0) + 2 : 2`. -/
def bulletRepl (caps : Caps) (_consumed : List Char) : List Char :=
  let level := (lookupCap caps 1).getD []
  let content := (lookupCap caps 2).getD []
  let len := if level.length > 0 then level.length / 4 + 2 else 2
  List.replicate (len - 1) '-' ++ ' ' :: content

/-- The inline-tag table of the source (`cite`, `del`, `ins`, `sup`, `sub`). -/
def tagMap : List (List Char × List Char) :=
  [("cite".toList, "??".toList), ("del".toList, "-".toList),
   ("ins".toList, "+".toList), ("sup".toList, "^".toList),
   ("sub".toList, "~".toList)]

/-- Stage 6 pattern: `/<(cite|del|ins|sup|sub)>(.*?)<\/\1>/g`. -/
def tagRE : RE :=
  .seq (.lit ['<'])
    (.seq (.grp 1 (.alt (.lit "cite".toList)
        (.alt (.lit "del".toList)
          (.alt (.lit "ins".toList)
            (.alt (.lit "sup".toList) (.lit "sub".toList))))))
      (.seq (.lit ['>'])
        (.seq (.grp 2 (.starL jsDot))
          (.seq (.lit ['<', '/']) (.seq (.bref 1) (.lit ['>']))))))

/-- Stage 6 replacement: `const to = map[from] || ''; to + content + to`. -/
def tagRepl (caps : Caps) (_consumed : List Char) : List Char :=
  let tagName := (lookupCap caps 1).getD []
  let content := (lookupCap caps 2).getD []
  let toMark := ((tagMap.find? (fun p => p.1 == tagName)).map (·.2)).getD []
  toMark ++ content ++ toMark

/-- Stage 7 pattern: `/~~(.*?)~~/g`, replacement `'-$1-'`. -/
def strikeRE : RE :=
  .seq (.lit "~~".toList) (.seq (.grp 1 (.starL jsDot)) (.lit "~~".toList))

/-- Stage 7 replacement. -/
def strikeRepl (caps : Caps) (_consumed : List Char) : List Char :=
  '-' :: (lookupCap caps 1).getD [] ++ ['-']

/-- Stage 8 pattern: ``/`([^`]+)`/g``, replacement `'{{$1}}'`. -/
def codeSpanRE : RE :=
  .seq (.lit ['\x60'])
    (.seq (.grp 1 (.plusG (fun c => c != '\x60'))) (.lit ['\x60']))

/-- Stage 8 replacement. -/
def codeSpanRepl (caps : Caps) (_consumed : List Char) : List Char :=
  "\x7b\x7b".toList ++ (lookupCap caps 1).getD [] ++ "\x7d\x7d".toList

/-- Stage 9 pattern: `/\[([^\]]+)\]\(([^)]+)\)/g`, replacement `'[$1|$2]'`. -/
def linkRE : RE :=
  .seq (.lit ['['])
    (.seq (.grp 1 (.plusG (fun c => c != ']')))
      (.seq (.lit [']', '('])
        (.seq (.grp 2 (.plusG (fun c => c != ')'))) (.lit [')']))))

/-- Stage 9 replacement. -/
def linkRepl (caps : Caps) (_consumed : List Char) : List Char :=
  '[' :: (lookupCap caps 1).getD [] ++ '|' :: (lookupCap caps 2).getD [] ++ [']']

/-- Stage 10 pattern: `/<([^>]+)>/g`, replacement `'[$1]'`. -/
def autoLinkRE : RE :=
  .seq (.lit ['<']) (.seq (.grp 1 (.plusG (fun c => c != '>'))) (.lit ['>']))

/-- Stage 10 replacement. -/
def autoLinkRepl (caps : Caps) (_consumed : List Char) : List Char :=
  '[' :: (lookupCap caps 1).getD [] ++ [']']

/-- ECMAScript `GetSubstitution` for a string pattern (no capture groups):
`$$`, ``$` ``, `$'` and `$&` are interpreted, any other `$` is literal. -/
def substDollar (matched before after : List Char) : List Char → List Char
  | [] => []
  | '$' :: '$' :: rest => '$' :: substDollar matched before after rest
  | '$' :: '&' :: rest => matched ++ substDollar matched before after rest
  | '$' :: '\x60' :: rest => before ++ substDollar matched before after rest
  | '$' :: '\'' :: rest => after ++ substDollar matched before after rest
  | c :: rest => c :: substDollar matched before after rest

/-- `String.prototype.replace(stringPattern, stringValue)`: replace the
first occurrence only, applying `GetSubstitution` to the value.  `seen`
accumulates (reversed) the part already scanned. -/
def jsReplaceOnceAux (pat val : List Char) (seen rest : List Char) : List Char :=
  match rest with
  | [] => seen.reverse
  | c :: rest' =>
    if pat.isPrefixOf (c :: rest') then
      seen.reverse ++
      substDollar pat seen.reverse (List.drop pat.length (c :: rest')) val ++
      List.drop pat.length (c :: rest')
    else jsReplaceOnceAux pat val (c :: seen) rest'

/-- First-occurrence string replace (the restore loop's
`input.replace(sub['key'], sub['value'])`). -/
def jsReplaceOnce (pat val s : List Char) : List Char :=
  jsReplaceOnceAux pat val [] s

/-- `line.replace(/\|/g, '||')` of the table stage. -/
def doublePipes (l : List Char) : List Char :=
  l.flatMap (fun c => if c = '|' then ['|', '|'] else [c])

/-- The table-header loop of the source, including its two quirks: when the
matching line is the first line, `lines[i - 1]` is `undefined` and the
`replace` call throws (`none` here); and because the loop index is not
decremented after `splice`, the line that slides into the removed slot is
never examined.  `done` holds the processed lines in reverse. -/
def tablePass (done : List (List Char)) : List (List Char) → Option (List (List Char))
  | [] => some done.reverse
  | l :: rest =>
    if containsSub "|---".toList l then
      match done with
      | [] => none
      | p :: ds =>
        match rest with
        | [] => some (doublePipes p :: ds).reverse
        | y :: ys => tablePass (y :: doublePipes p :: ds) ys
    else tablePass (l :: done) rest

/-- The final join: `input += lines[i] + '\n'` for every line. -/
def joinLinesNl (ls : List (List Char)) : List Char :=
  ls.foldr (fun l acc => l ++ '\n' :: acc) []

/-- `markdownToJira` of `src/j2m.ts`: the full pipeline, in source order.
Returns `none` when the source function would throw (which happens exactly
when the table stage finds a `|---` line with no preceding line). -/
def markdownToJira (input : String) : Option String :=
  let (s1, st) := runStageSt false fenceRE fenceRepl (0, []) input.toList
  let s2 := runStage true setextRE setextRepl s1
  let s3 := runStage true atxRE atxRepl s2
  let s4 := runStage false emphRE emphRepl s3
  let s5 := runStage true bulletRE bulletRepl s4
  let s6 := runStage false tagRE tagRepl s5
  let s7 := runStage false strikeRE strikeRepl s6
  let s8 := runStage false codeSpanRE codeSpanRepl s7
  let s9 := runStage false linkRE linkRepl s8
  let s10 := runStage false autoLinkRE autoLinkRepl s9
  let s11 := st.2.foldl (fun acc kv => jsReplaceOnce kv.1 kv.2 acc) s10
  (tablePass [] (splitCrLf s11)).map (fun ls => String.mk (joinLinesNl ls))

/-! ## User mapper and lodash operations -/

/-- `jira.userMap[login]` — forward lookup; `none` for JavaScript
`undefined`. -/
def userMapGet (userMap : List (String × String)) (login : String) : Option String :=
  (userMap.find? (fun p => p.1 == login)).map (·.2)

/-- `toGitHubUser` of `src/probotHelpers.ts`:
`Object.entries(this.userMap).find(([, j]) => j === jiraUser)?.[0] || null`.
The trailing `|| null` also turns an empty-string key into `null`. -/
def toGitHubUser (userMap : List (String × String)) (jiraUser : String) : Option String :=
  match (userMap.find? (fun p => p.2 == jiraUser)).map (·.1) with
  | some k => if k = "" then none else some k
  | none => none

/-- `_.difference(a, b₁, b₂, …)` with the exclusion arrays concatenated:
the elements of `a` (order and duplicates kept) that occur in none of the
exclusions. -/
def lodashDifference (a b : List String) : List String :=
  a.filter (fun x => !(b.contains x))

/-- `_.union(a, b)`: unique values, in order of first occurrence. -/
def lodashUnion (a b : List String) : List String :=
  (a ++ b).foldl (fun acc x => if acc.contains x then acc else acc ++ [x]) []

/-! ## Effects and oracle environments

The handlers of `src/index.ts` are embedded as pure functions from an
environment — the event payload, the repository configuration, and an
oracle giving the response of every external call the handler can make — to
an `Outcome`: the list of external *write* effects issued, in order, and a
flag that is `false` when the handler aborts with an uncaught exception. -/

/-- Which `writeComment` call site produced a GitHub comment. -/
inductive CommentKind where
  | linkSuccess
  | linkNotFound
  | linkMissingWarn
  | assigneeManual
  | assigneeAssigned
  | assigneeFailed
  | reviewersFailed
deriving DecidableEq, Repr

/-- The external writes a handler can issue. -/
inductive Effect where
  | ghComment (kind : CommentKind) (body : String)
  | jiraDeleteLink (selfUrl : String)
  | jiraCreateLink (issue url title : String)
  | jiraUpdateComment (issue commentId body : String)
  | jiraCreateComment (issue body : String)
  | ghAddAssignee (login : String)
  | jiraPutAssignee (issue accountId : String)
  | ghRequestReviewers (logins : List String)
  | jiraPutReviewers (issue : String) (names : List String)
  | setCachedIssue (issue : String)
deriving DecidableEq, Repr

/-- Effects issued so far, plus `true` for normal completion / `false` for
an uncaught exception. -/
abbrev Outcome := List Effect × Bool

/-- Sequencing: an uncaught exception skips everything after it. -/
def seqE (a b : Outcome) : Outcome :=
  if a.2 then (a.1 ++ b.1, b.2) else a

/-- A Jira remote link as the handlers read it: its `self` URL (used for
deletion) and `link?.object?.url`. -/
structure RemoteLink where
  selfUrl : String
  objectUrl : Option String
deriving DecidableEq, Repr

/-- A Jira user search result. -/
structure JiraUser where
  accountId : String
  displayName : String
deriving DecidableEq, Repr

/-- Outcome of the exact-match user lookup `user?username=…`: a user, a
JSON `null` (HTTP 204), or a thrown error. -/
inductive FetchUser where
  | ok (u : JiraUser)
  | okNull
  | threw
deriving DecidableEq, Repr

/-- A comment on the Jira issue (`fields.comment.comments[i]`). -/
structure JiraComment where
  id : String
  authorName : String
  body : String
deriving DecidableEq, Repr

/-- The issue detail snapshot the handler reads
(`fields.assignee`, `fields.comment.comments`, `fields[reviewerField]`). -/
structure IssueDetail where
  comments : List JiraComment
  assigneeName : Option String
  reviewers : List String
deriving DecidableEq, Repr

/-- `issueLinkMd` of `src/probotHelpers.ts`. -/
def issueLinkMd (url issue : String) : String :=
  "[" ++ issue ++ "](" ++ url ++ "/browse/" ++ issue ++ ")"

/-- Oracle for one `setAssignee` invocation. -/
structure AssigneeEnv where
  userMap : List (String × String)
  exactUser : FetchUser
  searchUsers : Option (List JiraUser)
  putAssigneeOk : Bool
deriving Repr

/-- `setAssignee` of `src/probotHelpers.ts`.  The exact lookup is tried
first; if it throws, the search runs (a throwing search is uncaught); a
search with anything but exactly one result leaves `jiraUser = null`, which
produces the single "Please update manually." comment and no PUT. -/
def setAssigneeE (aenv : AssigneeEnv) (url issue login : String) : Outcome :=
  let jiraUser : Option (Option JiraUser) :=
    match aenv.exactUser with
    | .ok u => some (some u)
    | .okNull => some none
    | .threw =>
      match aenv.searchUsers with
      | none => none
      | some us => if us.length ≠ 1 then some none else some us.head?
  match jiraUser with
  | none => ([], false)
  | some none =>
    ([.ghComment .assigneeManual ("Could not update assignee for " ++
        issueLinkMd url issue ++ ", user mapping required for `" ++ login ++
        "`. Please update manually.")], true)
  | some (some u) =>
    if aenv.putAssigneeOk then
      ([.jiraPutAssignee issue u.accountId,
        .ghComment .assigneeAssigned ("Jira ticket " ++ issueLinkMd url issue ++
          " has been assigned to " ++ u.displayName)], true)
    else
      ([.jiraPutAssignee issue u.accountId,
        .ghComment .assigneeFailed ("Warning: failed to update assignee for " ++
          issueLinkMd url issue ++ ", please update manually.")], true)

/-- The PR lifecycle actions the opened/edited handler receives. -/
inductive PrAction where
  | opened
  | edited
deriving DecidableEq, Repr

/-- Environment of the fuller `pull_request.opened`/`edited` handler of
`src/index.ts` (the variant that also syncs details). -/
structure PrEnv where
  action : PrAction
  changesTitle : Bool
  changesBody : Bool
  host : String
  protocol : String
  projectKey : String
  userMap : List (String × String)
  reviewersField : String
  username : String
  prTitle : String
  prUrl : String
  prId : Nat
  prBody : String
  prReviewers : List String
  prAuthor : String
  prAssignee : Option String
  cachedIssue : String
  issueDetail : Option IssueDetail
  oldLinks : Option (List RemoteLink)
  newLinks : Option (List RemoteLink)
  linkPostOk : Bool
  addAssigneesOk : Bool
  aenv : AssigneeEnv
deriving Repr

/-- `jira.url = protocol + '://' + host`. -/
def jiraUrl (env : PrEnv) : String := env.protocol ++ "://" ++ env.host

/-- `getJira` returns `null` iff `host` or `projectKey` is empty. -/
def jiraConfigured (env : PrEnv) : Bool :=
  env.host != "" && env.projectKey != ""

/-- The old-reference removal: fetch the existing issue's remote links
(`none` = the fetch threw; caught and logged), filter to this PR's URL and
delete each match.  All failures inside this block are caught. -/
def deleteOldLinksE (env : PrEnv) : List Effect :=
  match env.oldLinks with
  | none => []
  | some links =>
    (links.filter (fun l => l.objectUrl == some env.prUrl)).map
      (fun l => .jiraDeleteLink l.selfUrl)

/-- The title-linking block of the fuller opened/edited handler: the
`detectedIssue === existingIssue` short-circuit, old-link removal, the
found / not-found / no-issue comment, and the unconditional
`setCachedIssue` at the end of the changed branch.  The remote-link fetch
and POST for the detected issue are *not* wrapped in try/catch, so their
failure aborts the handler. -/
def linkingPhaseE (env : PrEnv) (detected titleText : String)
    (existing : Option String) (detail : Option IssueDetail) : Outcome :=
  if existing = some detected then ([], true)
  else
    let delOld : List Effect :=
      match existing with
      | some ex => if ex ≠ "" then deleteOldLinksE env else []
      | none => []
    let linkTitle := "GitHub PR #" ++ Nat.repr env.prId ++ " - " ++ titleText
    let mid : Outcome :=
      if detected ≠ "" then
        match detail with
        | some _ =>
          match env.newLinks with
          | none => ([], false)
          | some links =>
            if links.any (fun l => l.objectUrl == some env.prUrl) then ([], true)
            else if env.linkPostOk then
              ([.jiraCreateLink detected env.prUrl linkTitle,
                .ghComment .linkSuccess ("Successfully linked this PR to Jira: " ++
                  issueLinkMd (jiraUrl env) detected)], true)
            else
              ([.jiraCreateLink detected env.prUrl linkTitle], false)
        | none =>
          ([.ghComment .linkNotFound ("The specified issue `" ++ detected ++
              "` could not be found in Jira.")], true)
      else
        ([.ghComment .linkMissingWarn
            ("Warning: no Jira issue is associated with this PR. Prefix the PR title with `" ++
              env.projectKey ++ "-0:`.")], true)
    seqE (delOld, true) (seqE mid ([.setCachedIssue detected], true))

/-- The body of the Jira sync comment: the fixed prefix line, a rule, and
the markdown-converted PR body with HTML-comment lines stripped.  `none`
when `markdownToJira` throws. -/
def commentBodyOf (env : PrEnv) (titleText : String) : Option String :=
  (markdownToJira (String.mk (joinNl ((splitOnNl env.prBody.toList).filter
      (fun l => !("<!--".toList.isPrefixOf l)))))).map
    (fun md => "Linked to GitHub PR [#" ++ Nat.repr env.prId ++ " - " ++
      titleText ++ "|" ++ env.prUrl ++ "]\n----\n" ++ md)

/-- The sync-comment upsert: find a comment by the service account whose
body starts with the fixed prefix; update it, else create one.  The
PUT/POST failure is caught and only logged. -/
def commentUpsertE (env : PrEnv) (detected titleText : String)
    (detail : IssueDetail) : Outcome :=
  match commentBodyOf env titleText with
  | none => ([], false)
  | some body =>
    match detail.comments.find? (fun c =>
        c.authorName == env.username && c.body.startsWith "Linked to GitHub PR") with
    | some c => ([.jiraUpdateComment detected c.id body], true)
    | none => ([.jiraCreateComment detected body], true)

/-- The assignee sync of the detail-sync block: PR has no assignee but the
issue does → add the mapped login on the PR (the `addAssignees` call is not
wrapped, so its failure aborts); PR has an assignee but the issue does not
→ `setAssignee`. -/
def assigneeSyncE (env : PrEnv) (detected : String) (detail : IssueDetail) : Outcome :=
  match env.prAssignee with
  | none =>
    match detail.assigneeName with
    | some jname =>
      match toGitHubUser env.userMap jname with
      | some gh => ([.ghAddAssignee gh], env.addAssigneesOk)
      | none => ([], true)
    | none => ([], true)
  | some login =>
    match detail.assigneeName with
    | none => setAssigneeE env.aenv (jiraUrl env) detected login
    | some _ => ([], true)

/-- `toAddToPr`: Jira reviewers mapped to GitHub logins, minus the already
requested reviewers, minus the PR author. -/
def toAddToPrOf (userMap : List (String × String)) (jiraRevs prRevs : List String)
    (author : String) : List String :=
  lodashDifference ((jiraRevs.map (fun j => toGitHubUser userMap j)).filterMap id)
    (prRevs ++ [author])

/-- `toAddToJira`: PR reviewers mapped through `userMap` (unmapped or
empty-string mappings dropped by `.filter((u) => !!u)`), minus the existing
Jira reviewers. -/
def toAddToJiraOf (userMap : List (String × String)) (jiraRevs prRevs : List String) :
    List String :=
  lodashDifference
    ((prRevs.map (fun g => userMapGet userMap g)).filterMap (fun o =>
      match o with
      | some v => if v = "" then none else some v
      | none => none))
    jiraRevs

/-- The reviewer sync of the detail-sync block.  The PR-side request is
guarded by `toAddToPr.length`; the Jira-side PUT is guarded by
`if (toAddToJira)` — a JavaScript array is always truthy, so the PUT is
issued even when there is nothing to add.  Both calls' failures are caught
and only logged. -/
def reviewerSyncE (userMap : List (String × String)) (issue : String)
    (jiraRevs prRevs : List String) (author : String) : List Effect :=
  let toAddToPr := toAddToPrOf userMap jiraRevs prRevs author
  let toAddToJira := toAddToJiraOf userMap jiraRevs prRevs
  (if toAddToPr.length ≠ 0 then [.ghRequestReviewers toAddToPr] else []) ++
  [.jiraPutReviewers issue (lodashUnion toAddToJira jiraRevs)]

/-- The detail-sync block (comment upsert, then assignee sync, then
reviewer sync when the reviewer field is configured). -/
def detailSyncE (env : PrEnv) (detected titleText : String)
    (detail : IssueDetail) : Outcome :=
  seqE (commentUpsertE env detected titleText detail)
    (seqE (assigneeSyncE env detected detail)
      (if env.reviewersField ≠ "" then
        (reviewerSyncE env.userMap detected detail.reviewers env.prReviewers
          env.prAuthor, true)
      else ([], true)))

/-- `detectedIssue`: the issue key parsed from the PR title. -/
def detectedOf (env : PrEnv) : String := (parseTitle env.projectKey env.prTitle).1

/-- `prTitleText`: the description parsed from the PR title. -/
def titleTextOf (env : PrEnv) : String := (parseTitle env.projectKey env.prTitle).2

/-- `existingIssue = action === 'opened' ? null : await jira.getCachedIssue(...)`. -/
def existingOf (env : PrEnv) : Option String :=
  match env.action with
  | .opened => none
  | .edited => some env.cachedIssue

/-- `issueDetail = detectedIssue ? await jira.getIssueDetail(...) : null`
(`getIssueDetail` catches its own errors and returns `null`). -/
def detailOf (env : PrEnv) : Option IssueDetail :=
  if detectedOf env ≠ "" then env.issueDetail else none

/-- The core of the fuller opened/edited handler, after the event guards:
parse the title, read the cached issue (only for `edited`), fetch the
issue detail (only when an issue was detected), run the linking block and
then the detail sync. -/
def prCoreE (env : PrEnv) : Outcome :=
  seqE (linkingPhaseE env (detectedOf env) (titleTextOf env) (existingOf env)
      (detailOf env))
    (match detailOf env with
     | some d => detailSyncE env (detectedOf env) (titleTextOf env) d
     | none => ([], true))

/-- The fuller `pull_request.opened`/`edited` handler: ignore edits that
change neither title nor body, do nothing when Jira is not configured,
otherwise run the core. -/
def handlePrOpenedOrEdited (env : PrEnv) : Outcome :=
  if env.action = PrAction.edited ∧ ¬env.changesTitle ∧ ¬env.changesBody then
    ([], true)
  else if !jiraConfigured env then ([], true)
  else prCoreE env

/-- Environment of the first, link-only variant of the opened/edited
handler (the one using `jira.api.findIssue`/`createRemoteLink`):
`oldLinks`/`newLinks` are the remote links of the cached/detected issue
(`none` = the lookup threw), `createOk` tells whether `createRemoteLink`
succeeds. -/
structure PrEnvV1 where
  action : PrAction
  changesTitle : Bool
  host : String
  protocol : String
  projectKey : String
  prTitle : String
  prUrl : String
  prId : Nat
  cachedIssue : String
  oldLinks : Option (List RemoteLink)
  newLinks : Option (List RemoteLink)
  createOk : Bool
deriving Repr

/-- The detected issue key in the first variant. -/
def detectedOfV1 (env : PrEnvV1) : String := (parseTitle env.projectKey env.prTitle).1

/-- The cached-issue read of the first variant (`null` for `opened`). -/
def existingOfV1 (env : PrEnvV1) : Option String :=
  match env.action with
  | .opened => none
  | .edited => some env.cachedIssue

/-- The first variant of the opened/edited handler.  Differences from the
fuller one: edits are ignored unless the *title* changed; the
issue-unchanged case returns immediately; the whole add-new-issue block is
one try/catch whose catch posts the not-found comment (so a failing link
lookup or link creation also produces it); the success comment is posted
even when the link already exists; `setCachedIssue` runs unconditionally
after the branch. -/
def handlePrOpenedOrEditedV1 (env : PrEnvV1) : Outcome :=
  if env.action = PrAction.edited ∧ ¬env.changesTitle then ([], true)
  else if !(env.host != "" && env.projectKey != "") then ([], true)
  else
    let parsed := parseTitle env.projectKey env.prTitle
    let detected := detectedOfV1 env
    let existing : Option String := existingOfV1 env
    if existing = some detected then ([], true)
    else
      let delOld : List Effect :=
        match existing with
        | some ex =>
          if ex ≠ "" then
            match env.oldLinks with
            | none => []
            | some links =>
              (links.filter (fun l => l.objectUrl == some env.prUrl)).map
                (fun l => .jiraDeleteLink l.selfUrl)
          else []
        | none => []
      let url := env.protocol ++ "://" ++ env.host
      let notFound : Effect :=
        .ghComment .linkNotFound ("The specified issue `" ++ detected ++
          "` could not be found in Jira.")
      let mid : List Effect :=
        if detected ≠ "" then
          match env.newLinks with
          | none => [notFound]
          | some links =>
            if links.any (fun l => l.objectUrl == some env.prUrl) then
              [.ghComment .linkSuccess ("Successfully linked this PR to Jira: " ++
                issueLinkMd url detected)]
            else if env.createOk then
              [.jiraCreateLink detected env.prUrl
                  ("GitHub PR #" ++ Nat.repr env.prId ++ " - " ++ parsed.2),
               .ghComment .linkSuccess ("Successfully linked this PR to Jira: " ++
                 issueLinkMd url detected)]
            else
              [.jiraCreateLink detected env.prUrl
                  ("GitHub PR #" ++ Nat.repr env.prId ++ " - " ++ parsed.2),
               notFound]
        else
          [.ghComment .linkMissingWarn
            ("Warning: no Jira issue is associated with this PR. Prefix the PR title with `" ++
              env.projectKey ++ "-0:`.")]
      (delOld ++ mid ++ [.setCachedIssue detected], true)

/-- Environment of the `pull_request.assigned` handler (the variant using
`jira.setAssignee`). -/
structure AssignedEnv where
  prAssignee : Option String
  host : String
  protocol : String
  projectKey : String
  cachedIssue : String
  aenv : AssigneeEnv
deriving Repr

/-- The `pull_request.assigned` handler: no assignee login → return; Jira
not configured → return; no cached issue → return; else `setAssignee`. -/
def handlePrAssigned (env : AssignedEnv) : Outcome :=
  match env.prAssignee with
  | none => ([], true)
  | some login =>
    if !(env.host != "" && env.projectKey != "") then ([], true)
    else if env.cachedIssue = "" then ([], true)
    else
      setAssigneeE env.aenv (env.protocol ++ "://" ++ env.host)
        env.cachedIssue login

/-- Environment of the `review_requested`/`review_request_removed`
handler. -/
structure ReviewReqEnv where
  host : String
  protocol : String
  projectKey : String
  reviewersField : String
  userMap : List (String × String)
  cachedIssue : String
  prReviewers : List String
  putReviewersOk : Bool
deriving Repr

/-- `setReviewers` of `src/probotHelpers.ts`: a full replacement of the
reviewer field with the mapped logins (unmapped ones dropped); on failure a
warning comment is posted. -/
def setReviewersE (env : ReviewReqEnv) : Outcome :=
  if env.reviewersField = "" then ([], true)
  else
    let names := (env.prReviewers.map (fun r => userMapGet env.userMap r)).filterMap
      (fun o =>
        match o with
        | some v => if v = "" then none else some v
        | none => none)
    if env.putReviewersOk then ([.jiraPutReviewers env.cachedIssue names], true)
    else
      ([.jiraPutReviewers env.cachedIssue names,
        .ghComment .reviewersFailed ("Warning: failed to update reviewers for " ++
          issueLinkMd (env.protocol ++ "://" ++ env.host) env.cachedIssue ++
          ", please update manually.")], true)

/-- The `review_requested`/`review_request_removed` handler: Jira or the
reviewer field not configured → return; no cached issue → return; else
push the full current reviewer set. -/
def handleReviewRequested (env : ReviewReqEnv) : Outcome :=
  if !(env.host != "" && env.projectKey != "" && env.reviewersField != "") then
    ([], true)
  else if env.cachedIssue = "" then ([], true)
  else setReviewersE env

/-! ## Predicates and concrete environments used by the theorems -/

/-- The writes of the title-linking block: remote-link deletion, remote-link
creation, the three linking status comments, and the Association rewrite. -/
def isLinkingWrite : Effect → Bool
  | .setCachedIssue _ => true
  | .jiraDeleteLink _ => true
  | .jiraCreateLink _ _ _ => true
  | .ghComment .linkSuccess _ => true
  | .ghComment .linkNotFound _ => true
  | .ghComment .linkMissingWarn _ => true
  | _ => false

/-- A quiescent assignee oracle. -/
def aenvDefault : AssigneeEnv :=
  { userMap := [], exactUser := .threw, searchUsers := some [], putAssigneeOk := true }

/-- An edited event whose new title detects `TEST-2` while the cached
Association is `TEST-1`, and whose issue-detail lookup fails. -/
def envNotFound : PrEnv :=
  { action := .edited, changesTitle := true, changesBody := false
    host := "jira.example.com", protocol := "https", projectKey := "TEST"
    userMap := [], reviewersField := "", username := "jirabot"
    prTitle := "TEST-2: x", prUrl := "http://pr/1", prId := 1, prBody := ""
    prReviewers := [], prAuthor := "me", prAssignee := none
    cachedIssue := "TEST-1", issueDetail := none
    oldLinks := some [], newLinks := some [], linkPostOk := true
    addAssigneesOk := true, aenv := aenvDefault }

/-- An edited event (body changed) whose title detects the same `TEST-1`
that is cached, with the issue found and bare of comments, assignee and
reviewers. -/
def envUnchanged : PrEnv :=
  { envNotFound with
    prTitle := "TEST-1: x", changesTitle := false, changesBody := true
    issueDetail := some { comments := [], assigneeName := none, reviewers := [] } }

/-- A first-variant edited event whose title detects the cached issue. -/
def envUnchangedV1 : PrEnvV1 :=
  { action := .edited, changesTitle := true
    host := "jira.example.com", protocol := "https", projectKey := "TEST"
    prTitle := "TEST-1: x", prUrl := "http://pr/1", prId := 1
    cachedIssue := "TEST-1", oldLinks := some [], newLinks := some []
    createOk := true }

/-- An assigned event with no cached Association. -/
def envAssignedEmpty : AssignedEnv :=
  { prAssignee := some "u", host := "jira.example.com", protocol := "https"
    projectKey := "TEST", cachedIssue := "", aenv := aenvDefault }

/-- A review-requested event with no cached Association. -/
def envReviewReqEmpty : ReviewReqEnv :=
  { host := "jira.example.com", protocol := "https", projectKey := "TEST"
    reviewersField := "customfield_1", userMap := [], cachedIssue := ""
    prReviewers := ["r"], putReviewersOk := true }

/-! ## Helper lemmas -/

theorem mem_seqE {e : Effect} {a b : Outcome} (h : e ∈ (seqE a b).1) :
    e ∈ a.1 ∨ e ∈ b.1 := by
  unfold seqE at h
  by_cases h2 : a.2 = true
  · simp only [h2, if_pos] at h
    exact List.mem_append.mp h
  · simp only [h2, if_neg, Bool.false_eq_true, not_false_iff] at h
    exact Or.inl h

theorem lodashUnion_foldl_mem (l : List String) :
    ∀ (acc : List String) (x : String),
      (x ∈ l.foldl (fun acc x => if acc.contains x then acc else acc ++ [x]) acc ↔
        x ∈ acc ∨ x ∈ l) := by
  induction l with
  | nil => intro acc x; simp
  | cons y ys ih =>
    intro acc x
    simp only [List.foldl_cons]
    rw [ih]
    by_cases hy : acc.contains y = true
    · have hmem : y ∈ acc := by simpa using hy
      simp only [hy, if_pos, List.mem_cons]
      constructor
      · rintro (h | h)
        · exact Or.inl h
        · exact Or.inr (Or.inr h)
      · rintro (h | rfl | h)
        · exact Or.inl h
        · exact Or.inl hmem
        · exact Or.inr h
    · simp only [hy, if_neg, Bool.false_eq_true, not_false_iff, List.mem_append,
        List.mem_singleton, List.mem_cons]
      tauto

theorem mem_lodashUnion {a b : List String} {x : String} :
    x ∈ lodashUnion a b ↔ x ∈ a ∨ x ∈ b := by
  unfold lodashUnion
  rw [lodashUnion_foldl_mem]
  simp

theorem setAssigneeE_all_not_linking (aenv : AssigneeEnv) (url issue login : String) :
    (setAssigneeE aenv url issue login).1.all (fun e => !isLinkingWrite e) = true := by
  obtain ⟨um, ex, se, pu⟩ := aenv
  rcases ex with u | _ | _
  · cases pu <;> simp [setAssigneeE, isLinkingWrite]
  · simp [setAssigneeE, isLinkingWrite]
  · rcases se with _ | (_ | ⟨u, _ | ⟨v, us⟩⟩) <;> cases pu <;>
      simp [setAssigneeE, isLinkingWrite]

theorem setAssigneeE_not_linking {aenv : AssigneeEnv} {url issue login : String}
    {e : Effect} (h : e ∈ (setAssigneeE aenv url issue login).1) :
    isLinkingWrite e = false := by
  have hall := setAssigneeE_all_not_linking aenv url issue login
  rw [List.all_eq_true] at hall
  simpa using hall e h

theorem commentUpsertE_not_linking {env : PrEnv} {detected titleText : String}
    {d : IssueDetail} {e : Effect}
    (h : e ∈ (commentUpsertE env detected titleText d).1) :
    isLinkingWrite e = false := by
  unfold commentUpsertE at h
  split at h
  · simp at h
  · split at h <;>
    · simp at h
      subst h
      rfl

theorem assigneeSyncE_not_linking {env : PrEnv} {detected : String}
    {d : IssueDetail} {e : Effect}
    (h : e ∈ (assigneeSyncE env detected d).1) :
    isLinkingWrite e = false := by
  unfold assigneeSyncE at h
  split at h
  · split at h
    · split at h
      · simp at h
        subst h
        rfl
      · simp at h
    · simp at h
  · split at h
    · exact setAssigneeE_not_linking h
    · simp at h

theorem reviewerSyncE_not_linking {um : List (String × String)} {issue : String}
    {jr pr : List String} {author : String} {e : Effect}
    (h : e ∈ reviewerSyncE um issue jr pr author) :
    isLinkingWrite e = false := by
  unfold reviewerSyncE at h
  rcases List.mem_append.mp h with h | h
  · split at h
    · simp at h
      subst h
      rfl
    · simp at h
  · simp at h
    subst h
    rfl

theorem detailSyncE_not_linking {env : PrEnv} {detected titleText : String}
    {d : IssueDetail} {e : Effect}
    (h : e ∈ (detailSyncE env detected titleText d).1) :
    isLinkingWrite e = false := by
  unfold detailSyncE at h
  rcases mem_seqE h with h | h
  · exact commentUpsertE_not_linking h
  · rcases mem_seqE h with h | h
    · exact assigneeSyncE_not_linking h
    · split at h
      · exact reviewerSyncE_not_linking h
      · simp at h

/-! ## Claim theorems -/

/-- C3.  `parseTitle` accepts the bracketed and unbracketed forms, matches
the key case-insensitively and upper-cases it, and on no match returns a
pair of empty strings.  (Totality holds by construction: `parseTitle` is a
Lean function defined for every title string.) -/
theorem parseTitle_roundtrip :
    parseTitle "TEST" "TEST-7: fix bug" = ("TEST-7", "fix bug")
    ∧ parseTitle "TEST" "[TEST-7] - fix bug" = ("TEST-7", "fix bug")
    ∧ parseTitle "TEST" "no issue" = ("", "")
    ∧ parseTitle "TEST" "test-7: fix bug" = ("TEST-7", "fix bug")
    ∧ (∀ (key title : String),
        titleMatch key.toList title.toList = none → parseTitle key title = ("", "")) := by
  refine ⟨by decide, by decide, by decide, by decide, ?_⟩
  intro key title h
  unfold parseTitle
  rw [h]

/-- Witness for C3: the no-match clause at the spec's own example. -/
theorem parseTitle_roundtrip_witness :
    titleMatch "TEST".toList "no issue".toList = none ∧
      parseTitle "TEST" "no issue" = ("", "") :=
  ⟨by decide, parseTitle_roundtrip.2.2.2.2 "TEST" "no issue" (by decide)⟩

/-- C5.  In `setAssignee`, when the exact lookup throws and the user search
returns anything but exactly one user, the run posts exactly one
"Please update manually." comment and issues no assignee PUT. -/
theorem ambiguous_user_aborts_assignee (aenv : AssigneeEnv)
    (url issue login : String) (us : List JiraUser)
    (hexact : aenv.exactUser = .threw)
    (hsearch : aenv.searchUsers = some us)
    (hlen : us.length ≠ 1) :
    setAssigneeE aenv url issue login =
      ([.ghComment .assigneeManual ("Could not update assignee for " ++
          issueLinkMd url issue ++ ", user mapping required for `" ++ login ++
          "`. Please update manually.")], true) := by
  unfold setAssigneeE
  rw [hexact, hsearch]
  simp [hlen]

/-- Witness for C5: a two-result search. -/
theorem ambiguous_user_aborts_assignee_witness :
    setAssigneeE
        { userMap := [], exactUser := .threw,
          searchUsers := some [⟨"a1", "D"⟩, ⟨"a2", "E"⟩], putAssigneeOk := true }
        "https://jira.example.com" "TEST-1" "u" =
      ([.ghComment .assigneeManual ("Could not update assignee for " ++
          issueLinkMd "https://jira.example.com" "TEST-1" ++
          ", user mapping required for `u`. Please update manually.")], true) := by
  have := ambiguous_user_aborts_assignee
    { userMap := [], exactUser := .threw,
      searchUsers := some [⟨"a1", "D"⟩, ⟨"a2", "E"⟩], putAssigneeOk := true }
    "https://jira.example.com" "TEST-1" "u" [⟨"a1", "D"⟩, ⟨"a2", "E"⟩]
    rfl rfl (by decide)
  simpa using this

/-- C8.  `markdownToJira` is not total: on an input whose first line
contains the table-separator pattern `|---`, the table stage dereferences
the non-existent preceding line and the source throws (`none` here). -/
theorem markdownToJira_not_total :
    markdownToJira "|---" = none ∧ markdownToJira "|---|---\nrest" = none := by
  constructor <;> decide

/-- C10.  The `pull_request.assigned` and `review_requested`/
`review_request_removed` handlers issue no tracker call and post no comment
when the cached Association is empty. -/
theorem empty_association_no_writes (e1 : AssignedEnv) (e2 : ReviewReqEnv)
    (h1 : e1.cachedIssue = "") (h2 : e2.cachedIssue = "") :
    handlePrAssigned e1 = ([], true) ∧ handleReviewRequested e2 = ([], true) := by
  constructor
  · unfold handlePrAssigned
    split
    · rfl
    · simp [h1]
  · unfold handleReviewRequested
    split
    · rfl
    · simp [h2]

/-- Witness for C10. -/
theorem empty_association_no_writes_witness :
    handlePrAssigned envAssignedEmpty = ([], true) ∧
      handleReviewRequested envReviewReqEmpty = ([], true) :=
  empty_association_no_writes envAssignedEmpty envReviewReqEmpty rfl rfl

/-- C4.  Reviewer sync is an additive union.  With the user map
`a↔A, b↔B, c↔C`, tracker reviewers `{A,B}` and PR reviewers `{b,c}`: the
PR request set becomes `{a,b,c}` minus the author (shown for an outside
author `d` and for the author `a`), and the tracker field payload is the
union `{A,B,C}` of its previous entries and the identities mapped from the
PR reviewers.  In general, neither side ever loses an existing entry on
this path. -/
theorem reviewer_sync_additive :
    (toAddToPrOf [("a", "A"), ("b", "B"), ("c", "C")] ["A", "B"] ["b", "c"] "d" = ["a"]
      ∧ ["b", "c"] ++
          toAddToPrOf [("a", "A"), ("b", "B"), ("c", "C")] ["A", "B"] ["b", "c"] "d" =
          ["b", "c", "a"]
      ∧ toAddToPrOf [("a", "A"), ("b", "B"), ("c", "C")] ["A", "B"] ["b", "c"] "a" = []
      ∧ ["b", "c"] ++
          toAddToPrOf [("a", "A"), ("b", "B"), ("c", "C")] ["A", "B"] ["b", "c"] "a" =
          ["b", "c"]
      ∧ lodashUnion
          (toAddToJiraOf [("a", "A"), ("b", "B"), ("c", "C")] ["A", "B"] ["b", "c"])
          ["A", "B"] = ["C", "A", "B"])
    ∧ (∀ (um : List (String × String)) (jr pr : List String) (author : String),
        (∀ y ∈ jr, y ∈ lodashUnion (toAddToJiraOf um jr pr) jr)
        ∧ (∀ y ∈ pr, y ∈ pr ++ toAddToPrOf um jr pr author)) := by
  refine ⟨⟨by decide, by decide, by decide, by decide, by decide⟩, ?_⟩
  intro um jr pr author
  exact ⟨fun y hy => mem_lodashUnion.mpr (Or.inr hy),
    fun y hy => List.mem_append_left _ hy⟩

/-- Witness for C4: the non-destructiveness clauses at concrete inputs. -/
theorem reviewer_sync_additive_witness :
    "B" ∈ lodashUnion (toAddToJiraOf [("b", "B")] ["B"] []) ["B"]
      ∧ "b" ∈ ["b"] ++ toAddToPrOf [("b", "B")] ["B"] ["b"] "z" :=
  ⟨(reviewer_sync_additive.2 [("b", "B")] ["B"] [] "z").1 "B" (by decide),
   (reviewer_sync_additive.2 [("b", "B")] ["B"] ["b"] "z").2 "b" (by decide)⟩

/-- C9.  The Jira-side reviewer PUT is guarded by `if (toAddToJira)`, which
is always truthy for an array, so the PUT is issued on every run — even
when there is nothing to add (concrete instance: everything already
present, `toAddToJira = []`, yet the PUT appears).  The PR-side request, by
contrast, is issued exactly when its to-add set is non-empty. -/
theorem jira_reviewer_put_unguarded :
    (∀ (um : List (String × String)) (issue : String) (jr pr : List String)
        (author : String),
      Effect.jiraPutReviewers issue (lodashUnion (toAddToJiraOf um jr pr) jr) ∈
          reviewerSyncE um issue jr pr author
        ∧ (Effect.ghRequestReviewers (toAddToPrOf um jr pr author) ∈
              reviewerSyncE um issue jr pr author
            ↔ toAddToPrOf um jr pr author ≠ []))
    ∧ toAddToJiraOf [("b", "B")] ["B"] ["b"] = []
    ∧ reviewerSyncE [("b", "B")] "TEST-1" ["B"] ["b"] "me" =
        [.jiraPutReviewers "TEST-1" ["B"]] := by
  refine ⟨?_, by decide, by decide⟩
  intro um issue jr pr author
  unfold reviewerSyncE
  by_cases hne : toAddToPrOf um jr pr author = []
  · simp [hne]
  · have hlen : (toAddToPrOf um jr pr author).length ≠ 0 := by
      simpa [List.length_eq_zero] using hne
    simp [hlen, hne]

/-- C7 counterexample.  The ATX replacement is
`'h' + level.length + '.' + content` where `content` keeps the space after
the `#` run, so `markdownToJira "# Title"` is `"h1. Title\n"`, not the
claimed `"h1.Title\n"`. -/
theorem heading_space_cex :
    markdownToJira "# Title" = some "h1. Title\n"
      ∧ ("h1. Title\n" : String) ≠ "h1.Title\n" := by
  constructor <;> decide

/-- C7 as amended.  A level-`n` ATX heading becomes an `h{n}.` marker line
with the rest of the line (including its leading space) appended verbatim;
a multi-character emphasis wrapper becomes the bold marker; and a trailing
newline is appended after the final line. -/
theorem heading_and_bold_conversion :
    markdownToJira "# Title" = some "h1. Title\n"
    ∧ markdownToJira "## Sub" = some "h2. Sub\n"
    ∧ markdownToJira "**bold**" = some "*bold*\n" := by
  refine ⟨by decide, by decide, by decide⟩

/-- C6 counterexample.  Placeholder restoration happens *before* the
table-header pass, so fence content containing a `|---` line is rewritten
after restoration: the content of the fenced block below contains `|---`,
but the output does not — the content is not preserved verbatim. -/
theorem fence_table_rewrite_cex :
    markdownToJira "```\nx\n|---\n```" = some "\x7bcode\x7d\nx\n\x7bcode\x7d\n"
    ∧ containsSub "|---".toList "```\nx\n|---\n```".toList = true
    ∧ containsSub "|---".toList "\x7bcode\x7d\nx\n\x7bcode\x7d\n".toList = false := by
  refine ⟨by decide, by decide, by decide⟩

/-- C6 as amended.  Fenced code is extracted into a placeholder before any
other stage and restored wrapped as `{code[:lang]}…{code}` *before the
table-header pass* (not at the very end); the content is untouched by the
emphasis, heading and list rules — a block containing `**`, `#` and `- `
survives verbatim — but content containing a `|---` table-separator line is
still rewritten by the table pass. -/
theorem fence_block_protected :
    markdownToJira "```js\na ** b\n```" = some "\x7bcode:js\x7d\na ** b\n\x7bcode\x7d\n"
    ∧ markdownToJira "```\n# x\n- y\n```" = some "\x7bcode\x7d\n# x\n- y\n\x7bcode\x7d\n" := by
  constructor <;> decide

/-- C1 counterexample.  An edited event whose title detects `TEST-2` while
`TEST-1` is cached, with the detail lookup failing: the handler posts the
not-found comment *and* overwrites the cached Association with `TEST-2`. -/
theorem notFound_overwrites_cache_cex :
    handlePrOpenedOrEdited envNotFound =
      ([.ghComment .linkNotFound "The specified issue `TEST-2` could not be found in Jira.",
        .setCachedIssue "TEST-2"], true)
    ∧ envNotFound.cachedIssue = "TEST-1"
    ∧ ("TEST-2" : String) ≠ "TEST-1" := by
  refine ⟨by decide, by decide, by decide⟩

/-- C1 as amended.  On an opened/edited event where the detected key
differs from the cached key and the detail lookup fails, the handler posts
the "could not be found" comment and *nevertheless* caches the detected key
as the new Association. -/
theorem notFound_comment_and_cache_overwrite (env : PrEnv)
    (hguard : env.action = PrAction.edited →
      (env.changesTitle = true ∨ env.changesBody = true))
    (hconf : jiraConfigured env = true)
    (hchanged : existingOf env ≠ some (detectedOf env))
    (hne : detectedOf env ≠ "")
    (hdetail : env.issueDetail = none) :
    Effect.ghComment .linkNotFound ("The specified issue `" ++ detectedOf env ++
        "` could not be found in Jira.") ∈ (handlePrOpenedOrEdited env).1
    ∧ Effect.setCachedIssue (detectedOf env) ∈ (handlePrOpenedOrEdited env).1 := by
  have hdetail2 : detailOf env = none := by
    unfold detailOf
    rw [hdetail]
    simp
  have hA : ¬(env.action = PrAction.edited ∧ ¬env.changesTitle = true ∧
      ¬env.changesBody = true) := by
    rintro ⟨ha, ht, hb⟩
    rcases hguard ha with h | h
    · exact ht h
    · exact hb h
  have hcore : (handlePrOpenedOrEdited env) = prCoreE env := by
    unfold handlePrOpenedOrEdited
    rw [if_neg hA]
    simp [hconf]
  have hlink : linkingPhaseE env (detectedOf env) (titleTextOf env) (existingOf env)
      (detailOf env) =
      ((match existingOf env with
        | some ex => if ex ≠ "" then deleteOldLinksE env else []
        | none => []) ++
        ([Effect.ghComment .linkNotFound ("The specified issue `" ++ detectedOf env ++
          "` could not be found in Jira.")] ++ [Effect.setCachedIssue (detectedOf env)]),
        true) := by
    unfold linkingPhaseE
    rw [if_neg hchanged, hdetail2]
    simp [hne, seqE]
  rw [hcore]
  unfold prCoreE
  rw [hlink, hdetail2]
  simp [seqE]

/-- Witness for C1. -/
theorem notFound_comment_and_cache_overwrite_witness :
    Effect.ghComment .linkNotFound ("The specified issue `" ++ detectedOf envNotFound ++
        "` could not be found in Jira.") ∈ (handlePrOpenedOrEdited envNotFound).1
    ∧ Effect.setCachedIssue (detectedOf envNotFound) ∈
        (handlePrOpenedOrEdited envNotFound).1 :=
  notFound_comment_and_cache_overwrite envNotFound (fun _ => Or.inl rfl) rfl
    (by decide) (by decide) rfl

/-- C2 counterexample.  An edited event (body changed) whose detected issue
equals the cached issue: the linking block is skipped, but the detail sync
still issues an external write — the Jira sync-comment POST — so the event
does not produce zero external writes. -/
theorem unchanged_issue_detail_sync_writes_cex :
    handlePrOpenedOrEdited envUnchanged =
      ([.jiraCreateComment "TEST-1"
          "Linked to GitHub PR [#1 - x|http://pr/1]\n----\n\n"], true)
    ∧ ([Effect.jiraCreateComment "TEST-1"
          "Linked to GitHub PR [#1 - x|http://pr/1]\n----\n\n"] : List Effect) ≠ [] := by
  constructor <;> decide

/-- C2 as amended.  When the detected issue equals the cached issue, the
handler performs none of the linking writes — no remote-link deletion, no
remote-link creation, no linking status comment, no Association rewrite —
but the detail sync may still issue writes (Jira comment upsert, assignee
and reviewer sync); the first, link-only variant returns with zero writes. -/
theorem unchanged_issue_no_linking_writes (env : PrEnv) (envV1 : PrEnvV1)
    (h : existingOf env = some (detectedOf env))
    (h1 : existingOfV1 envV1 = some (detectedOfV1 envV1)) :
    (∀ e ∈ (handlePrOpenedOrEdited env).1, isLinkingWrite e = false)
    ∧ handlePrOpenedOrEditedV1 envV1 = ([], true) := by
  constructor
  · intro e he
    unfold handlePrOpenedOrEdited at he
    by_cases hA : (env.action = PrAction.edited ∧ ¬env.changesTitle = true ∧
        ¬env.changesBody = true)
    · rw [if_pos hA] at he
      simp at he
    · rw [if_neg hA] at he
      by_cases hB : (!jiraConfigured env) = true
      · rw [if_pos hB] at he
        simp at he
      · rw [if_neg hB] at he
        unfold prCoreE at he
        have hlink : linkingPhaseE env (detectedOf env) (titleTextOf env)
            (existingOf env) (detailOf env) = ([], true) := by
          unfold linkingPhaseE
          rw [if_pos h]
        rw [hlink] at he
        simp only [seqE, if_pos, List.nil_append] at he
        rcases hd : detailOf env with _ | d
        · rw [hd] at he
          simp at he
        · rw [hd] at he
          exact detailSyncE_not_linking he
  · unfold handlePrOpenedOrEditedV1
    split
    · rfl
    · split
      · rfl
      · simp only []
        rw [if_pos h1]

/-- Witness for C2. -/
theorem unchanged_issue_no_linking_writes_witness :
    (∀ e ∈ (handlePrOpenedOrEdited envUnchanged).1, isLinkingWrite e = false)
    ∧ handlePrOpenedOrEditedV1 envUnchangedV1 = ([], true) :=
  unchanged_issue_no_linking_writes envUnchanged envUnchangedV1 (by decide) (by decide)

end GitBot
